import Mathlib

/-!
Verification of the `berryboylb/image-processor` library (Go) against its
natural-language specification.

Shallow embedding notes:

* Every image this library constructs or loads has zero-based bounds
  `(0, 0, w, h)`: the raster decoders of Go's `image` package, the SVG
  rasterizer (`image.Rect(0, 0, w, h)`), and every transform
  (`image.NewRGBA(bounds)` with the loader-produced bounds, or a fresh
  `image.Rect(0, 0, _, _)`) yield such images.  A `Grid` is therefore a
  width, a height, and a pixel function on zero-based coordinates.
* A pixel is observed through the `At` method as four 8-bit channel values
  (red, green, blue, alpha); `image.RGBA.At` returns the zero color outside
  the bounds, which `Grid.pix` mirrors.  A grayscale image is represented by
  its `At` observation: `color.Gray.RGBA` reports `(y, y, y, 255)` at 8 bits.
* External library calls that this repository merely delegates to
  (the Catmull-Rom resampler `xdraw.CatmullRom.Scale`, the font renderer
  `font.Drawer.DrawString`, the SVG scanline rasterizer, and the actual
  codecs `jpeg.Encode`/`png.Encoder.Encode`/`gif.Encode`/`bmp.Encode`/
  `tiff.Encode`) are modelled as explicit function parameters: the
  repository's own contribution is the dispatch and state handling around
  them, which is embedded faithfully.
* Go `float64` arithmetic in `Brightness` is modelled with exact rationals;
  a comment at `goAdjust` justifies that the truncated 8-bit results agree.
-/

set_option maxHeartbeats 1000000

namespace ImageProcessor

/-- One color sample as observed through `color.Color.RGBA`, reduced to
8-bit channels the way `Processor.Brightness` does (`uint8(r >> 8)`):
red, green, blue, alpha. -/
structure Pixel where
  r : Nat
  g : Nat
  b : Nat
  a : Nat
deriving DecidableEq

/-- The zero color: `image.RGBA.At` returns `color.RGBA{}` outside bounds,
and `image.NewRGBA` starts fully zeroed. -/
def Pixel.zero : Pixel := ⟨0, 0, 0, 0⟩

/-- A pixel is well formed when each channel is an 8-bit value, as is the
case for every pixel of a real decoded image. -/
def Pixel.wf (p : Pixel) : Prop := p.r ≤ 255 ∧ p.g ≤ 255 ∧ p.b ≤ 255 ∧ p.a ≤ 255

instance (p : Pixel) : Decidable p.wf := by unfold Pixel.wf; infer_instance

/-- A pixel grid with zero-based bounds `(0, 0, width, height)`; `px` holds
the in-bounds samples (see `Grid.pix` for the bounds-checked observation
matching `image.RGBA.At`). -/
structure Grid where
  width : Nat
  height : Nat
  px : Nat → Nat → Pixel

/-- The `At` observation of a grid: in-bounds samples from `px`, the zero
color outside the bounds (as `image.RGBA.At` behaves). -/
def Grid.pix (g : Grid) (x y : Nat) : Pixel :=
  if x < g.width ∧ y < g.height then g.px x y else Pixel.zero

/-- Go: `type Processor struct { Img image.Image; Quality int; TargetFormat string }`.
`Img` is `none` when the interface value is nil. -/
structure Processor where
  Img : Option Grid
  Quality : Int
  TargetFormat : String

/-- Go: `NewProcessor` sets `Quality: 90` and `TargetFormat: ""`. -/
def NewProcessor (img : Option Grid) : Processor :=
  { Img := img, Quality := 90, TargetFormat := "" }

/-- Result of invoking a transform method.  The Go methods return
`*Processor` and have no error channel; calling one on a Processor whose
`Img` interface is nil dereferences nil (`p.Img.Bounds()`) and panics at
runtime, which `panicked` represents. -/
inductive TRes where
  | panicked
  | ok (p : Processor)

/-- The external Catmull-Rom resampler `xdraw.CatmullRom.Scale`, as a
function giving the destination samples from the source grid and the
requested destination width and height. -/
def ResampleFn : Type := Grid → Nat → Nat → Nat → Nat → Pixel

/-- The external font renderer `font.Drawer.DrawString`, as a function
giving the resulting samples from the base grid, the text, and the dot
position (which may be negative, hence `Int`). -/
def DrawFn : Type := Grid → String → Int × Int → Nat → Nat → Pixel

/-- Go `Resize`: `dst := image.NewRGBA(image.Rect(0, 0, width, height))`,
then the external Catmull-Rom scaler fills it from `p.Img`. -/
def resizeGrid (resample : ResampleFn) (g : Grid) (w h : Nat) : Grid :=
  ⟨w, h, resample g w h⟩

/-- Go `color.grayModel` on a non-Gray color:
`y := (19595 * r16 + 38470 * g16 + 7471 * b16 + 1 <<< 15) >>> 24` over the
16-bit channels of `c.RGBA()`.  The embedding observes colors at 8 bits,
so the 16-bit channels are reconstructed as `v * 0x101`; this is exact for
images whose samples are stored as 8-bit RGBA (as in every grid the
transforms of this library construct), while a decoder-native color model
such as YCbCr can carry sub-8-bit information that moves the computed gray
by at most one level (the theorems below do not constrain gray values).  For
a `color.Gray` input Go returns it unchanged, which agrees with this
formula on the `(y, y, y, 255)` observation (the correction term
`(65536 * y + 32768) / 2 ^ 24` is always zero). -/
def grayVal (p : Pixel) : Nat :=
  (19595 * (p.r * 257) + 38470 * (p.g * 257) + 7471 * (p.b * 257) + 32768) / 16777216

/-- Go `Grayscale`: `dst := image.NewGray(bounds)` and
`dst.Set(x, y, p.Img.At(x, y))` for every in-bounds `(x, y)`; the resulting
Gray image is observed through `At` as `(y, y, y, 255)`. -/
def grayscaleGrid (g : Grid) : Grid :=
  ⟨g.width, g.height, fun x y =>
    let v := grayVal (g.pix x y)
    ⟨v, v, v, 255⟩⟩

/-- Go `Rotate180`: `dst.Set(W-1-x, H-1-y, src.At(x, y))` for all in-bounds
`(x, y)`.  Since `x ↦ W-1-x` is a bijection of `[0, W)` (and likewise for
`y`), the destination sample at `(x, y)` is the source sample at
`(W-1-x, H-1-y)`, which is the gather form used here. -/
def rot180Grid (g : Grid) : Grid :=
  ⟨g.width, g.height, fun x y => g.pix (g.width - 1 - x) (g.height - 1 - y)⟩

/-- Go `Rotate90` (clockwise): destination bounds `Rect(0, 0, H, W)` and
`dst.Set(H-1-y, x, src.At(x, y))`; in gather form the destination sample at
`(u, v)` is the source sample at `(v, H-1-u)`. -/
def rot90Grid (g : Grid) : Grid :=
  ⟨g.height, g.width, fun x y => g.pix y (g.height - 1 - x)⟩

/-- Go `FlipHorizontal`: `dst.Set(W-1-x, y, src.At(x, y))`; gather form. -/
def flipHGrid (g : Grid) : Grid :=
  ⟨g.width, g.height, fun x y => g.pix (g.width - 1 - x) y⟩

/-- Go `FlipVertical`: `dst.Set(x, H-1-y, src.At(x, y))`; gather form. -/
def flipVGrid (g : Grid) : Grid :=
  ⟨g.width, g.height, fun x y => g.pix x (g.height - 1 - y)⟩

/-- Go `Brightness` clamping: `if percentage < -100 { percentage = -100 };
if percentage > 100 { percentage = 100 }`. -/
def clampPercent (percentage : Int) : Int :=
  if percentage < -100 then -100
  else if 100 < percentage then 100
  else percentage

/-- Go `Brightness` inner `adjust`: `newVal := float64(val) + (255.0 * scale)`
then clamp to `[0, 255]` and truncate with `uint8(newVal)`.

Float faithfulness: for an integer `pc ∈ [-100, 100]`, the `float64`
value of `255.0 * (float64(pc) / 100.0)` differs from the rational
`255 * pc / 100` by less than `6e-15`; the truncated result can only differ
when `val + 255 * pc / 100` is within that distance of an integer, i.e.
when `20 ∣ pc`, and for `pc ∈ {0, ±20, ±40, ±60, ±80, ±100}` the double
product rounds to exactly the integer `255 * pc / 100` (checked case by
case against IEEE-754 binary64 rounding).  Exact rational arithmetic is
therefore an exact model of the Go computation on 8-bit channel values. -/
def goAdjust (scale : ℚ) (val : Nat) : Nat :=
  let newVal : ℚ := (val : ℚ) + 255 * scale
  if 255 < newVal then 255
  else if newVal < 0 then 0
  else (⌊newVal⌋).toNat

/-- Go `Brightness`: clamp the percentage, set `scale := percentage / 100`,
and map every in-bounds pixel channel-wise through `adjust`, passing the
alpha channel through (`color.RGBA{adjust(nr), adjust(ng), adjust(nb), na}`). -/
def brightnessGrid (percentage : Int) (g : Grid) : Grid :=
  let pc := clampPercent percentage
  let scale : ℚ := (pc : ℚ) / 100
  ⟨g.width, g.height, fun x y =>
    let p := g.pix x y
    ⟨goAdjust scale p.r, goAdjust scale p.g, goAdjust scale p.b, p.a⟩⟩

/-- Go `Watermark`: copy the current grid into a fresh RGBA image, then the
external font drawer renders `text` at dot
`(W - len(text)*7 - 10, H - 10)` onto it; Go `len(text)` is the UTF-8 byte
length of the string. -/
def watermarkGrid (drawText : DrawFn) (g : Grid) (text : String) : Grid :=
  let base : Grid := ⟨g.width, g.height, fun x y => g.pix x y⟩
  let pt : Int × Int :=
    ((g.width : Int) - 7 * (text.utf8ByteSize : Int) - 10, (g.height : Int) - 10)
  ⟨g.width, g.height, drawText base text pt⟩

/-- Go `Resize`; on a nil image the argument `p.Img.Bounds()` of the scaler
call panics before any per-sample work. -/
def Processor.Resize (resample : ResampleFn) (p : Processor) (w h : Nat) : TRes :=
  match p.Img with
  | none => .panicked
  | some g => .ok { p with Img := some (resizeGrid resample g w h) }

/-- Go `Grayscale`; `bounds := p.Img.Bounds()` panics on a nil image. -/
def Processor.Grayscale (p : Processor) : TRes :=
  match p.Img with
  | none => .panicked
  | some g => .ok { p with Img := some (grayscaleGrid g) }

/-- Go `Rotate180`; `bounds := p.Img.Bounds()` panics on a nil image. -/
def Processor.Rotate180 (p : Processor) : TRes :=
  match p.Img with
  | none => .panicked
  | some g => .ok { p with Img := some (rot180Grid g) }

/-- Go `Rotate90`; `bounds := p.Img.Bounds()` panics on a nil image. -/
def Processor.Rotate90 (p : Processor) : TRes :=
  match p.Img with
  | none => .panicked
  | some g => .ok { p with Img := some (rot90Grid g) }

/-- Go `FlipHorizontal`; `bounds := p.Img.Bounds()` panics on a nil image. -/
def Processor.FlipHorizontal (p : Processor) : TRes :=
  match p.Img with
  | none => .panicked
  | some g => .ok { p with Img := some (flipHGrid g) }

/-- Go `FlipVertical`; `bounds := p.Img.Bounds()` panics on a nil image. -/
def Processor.FlipVertical (p : Processor) : TRes :=
  match p.Img with
  | none => .panicked
  | some g => .ok { p with Img := some (flipVGrid g) }

/-- Go `Brightness`; `bounds := p.Img.Bounds()` panics on a nil image. -/
def Processor.Brightness (p : Processor) (percentage : Int) : TRes :=
  match p.Img with
  | none => .panicked
  | some g => .ok { p with Img := some (brightnessGrid percentage g) }

/-- Go `Watermark`; `bounds := p.Img.Bounds()` panics on a nil image. -/
def Processor.Watermark (drawText : DrawFn) (p : Processor) (text : String) : TRes :=
  match p.Img with
  | none => .panicked
  | some g => .ok { p with Img := some (watermarkGrid drawText g text) }

/-- Go `SetQuality`: clamp the argument into `[1, 100]` with two successive
conditionals and store it. -/
def Processor.SetQuality (p : Processor) (quality : Int) : Processor :=
  let q1 := if quality < 1 then 1 else quality
  let q2 := if 100 < q1 then 100 else q1
  { p with Quality := q2 }

/-- Go `ToPNG`: `p.TargetFormat = "png"`. -/
def Processor.ToPNG (p : Processor) : Processor := { p with TargetFormat := "png" }

/-- Go `ToJPEG`: `p.TargetFormat = "jpeg"`. -/
def Processor.ToJPEG (p : Processor) : Processor := { p with TargetFormat := "jpeg" }

/-- Go `ToGIF`: `p.TargetFormat = "gif"`. -/
def Processor.ToGIF (p : Processor) : Processor := { p with TargetFormat := "gif" }

/-- Go `ToBMP`: `p.TargetFormat = "bmp"`. -/
def Processor.ToBMP (p : Processor) : Processor := { p with TargetFormat := "bmp" }

/-- Go `ToTIFF`: `p.TargetFormat = "tiff"`. -/
def Processor.ToTIFF (p : Processor) : Processor := { p with TargetFormat := "tiff" }

/-- Go `strings.TrimPrefix(s, ".")`: remove one leading dot if present. -/
def dropDot (s : String) : String :=
  match s.data with
  | '.' :: rest => String.mk rest
  | _ => s

/-- Go `unicode.ToLower` (the Unicode simple case mapping), embedded
exactly on ASCII and at the only two code points whose lowercase image is
an ASCII letter: U+0130 (LATIN CAPITAL LETTER I WITH DOT ABOVE, to `i`)
and U+212A (KELVIN SIGN, to `k`).  Every other simple case mapping sends a
non-ASCII character to a non-ASCII character and is left as the identity
here; consequently this model agrees with Go on whether a normalized tag
equals one of the (all-ASCII) supported tags for every input string, and
agrees with Go exactly on strings built from ASCII, U+0130 and U+212A.
Theorems about unsupported tags therefore assert the unsupported-format
error without pinning down its payload string. -/
def lowerChar (c : Char) : Char :=
  if 65 ≤ c.toNat ∧ c.toNat ≤ 90 then Char.ofNat (c.toNat + 32)
  else if c.toNat = 304 then 'i'
  else if c.toNat = 8490 then 'k'
  else c

/-- Go `strings.ToLower`: `unicode.ToLower` applied rune-wise. -/
def toLowerStr (s : String) : String := String.mk (s.data.map lowerChar)

/-- The tag normalization inside `Encode`:
`strings.TrimPrefix(strings.ToLower(format), ".")`. -/
def normalizeTag (s : String) : String := dropDot (toLowerStr s)

/-- Go `filepath.Ext`: the suffix of `path` beginning at the final dot in
the final slash-separated element, including the dot; empty if there is no
dot there.  `extAux` scans the reversed character list, stopping at a
separator. -/
def extAux : List Char → List Char → Option (List Char)
  | [], _ => none
  | c :: rest, acc =>
    if c = '/' then none
    else if c = '.' then some (c :: acc)
    else extAux rest (c :: acc)

/-- Go `filepath.Ext(path)`. -/
def filepathExt (path : String) : String :=
  match extAux path.data.reverse [] with
  | some cs => String.mk cs
  | none => ""

/-- The PNG compression-effort levels used by `Encode`. -/
inductive PngLevel where
  | defaultLevel
  | bestSpeed
  | bestCompression
deriving DecidableEq

/-- Go `Encode` PNG branch: `level := png.DefaultCompression;
if p.Quality <= 25 { BestSpeed } else if p.Quality >= 76 { BestCompression }`. -/
def pngLevelOf (q : Int) : PngLevel :=
  if q ≤ 25 then .bestSpeed
  else if 76 ≤ q then .bestCompression
  else .defaultLevel

/-- The codec (with its repository-chosen parameters) that `Encode`
dispatches to. -/
inductive Codec where
  | jpeg (quality : Int)
  | png (level : PngLevel)
  | gif
  | bmp
  | tiff
deriving DecidableEq

/-- The errors the output path of the library produces itself:
`"no format specified for conversion"` (from `ToBytes`) and
`"unsupported format: <tag>"` (from `Encode`). -/
inductive ImgError where
  | noFormatSpecified
  | unsupportedFormat (tag : String)
deriving DecidableEq

/-- The format resolution and dispatch switch of Go `Encode`: resolve an
empty format from `p.TargetFormat`, normalize, then the `switch` over
`"jpg"/"jpeg"`, `"png"`, `"gif"`, `"bmp"`, `"tiff"/"tif"`, default
unsupported. -/
def Processor.EncodeDispatch (p : Processor) (format : String) : Except ImgError Codec :=
  let f0 := if format = "" then p.TargetFormat else format
  let f := normalizeTag f0
  if f = "jpg" ∨ f = "jpeg" then .ok (.jpeg p.Quality)
  else if f = "png" then .ok (.png (pngLevelOf p.Quality))
  else if f = "gif" then .ok .gif
  else if f = "bmp" then .ok .bmp
  else if f = "tiff" ∨ f = "tif" then .ok .tiff
  else .error (.unsupportedFormat f)

/-- An external codec (`jpeg.Encode`, `png.Encoder.Encode`, `gif.Encode`,
`bmp.Encode`, `tiff.Encode`), as the bytes it appends to the sink for a
given image. -/
def EncFn : Type := Codec → Option Grid → List Nat

/-- Go `Encode(w, format)`: on a successful dispatch the selected codec
writes its bytes to the sink `w`; on the error branch nothing is written. -/
def Processor.Encode (enc : EncFn) (p : Processor) (format : String) (sink : List Nat) :
    Except ImgError Unit × List Nat :=
  match p.EncodeDispatch format with
  | .error e => (.error e, sink)
  | .ok c => (.ok (), sink ++ enc c p.Img)

/-- Go `ToBytes(format)`: resolve an empty format from `p.TargetFormat`;
if still empty fail with the no-format error, otherwise encode into a fresh
in-memory buffer and return its contents. -/
def Processor.ToBytes (enc : EncFn) (p : Processor) (format : String) :
    Except ImgError (List Nat) :=
  let f := if format = "" then p.TargetFormat else format
  if f = "" then .error .noFormatSpecified
  else
    match p.Encode enc f [] with
    | (.error e, _) => .error e
    | (.ok _, buf) => .ok buf

/-- The file system as an association list from paths to file contents;
`os.Create` failures are not modelled (creation always succeeds). -/
def FS : Type := List (String × List Nat)

/-- Create or truncate the file at `path` with the given contents. -/
def fsWrite (path : String) (content : List Nat) (fs : FS) : FS :=
  (path, content) :: fs.filter (fun e => e.1 != path)

/-- Read the file at `path`, if present. -/
def fsLookup (path : String) (fs : FS) : Option (List Nat) :=
  match fs.find? (fun e => e.1 == path) with
  | some e => some e.2
  | none => none

/-- Go `Save(path)`: `os.Create(path)` first (creating or truncating the
destination file), then resolve the format (`p.TargetFormat`, else
`filepath.Ext(path)`) and delegate to `Encode` on the file; the file ends
up holding exactly the bytes `Encode` wrote to it (none on an encode
error). -/
def Processor.Save (enc : EncFn) (p : Processor) (path : String) (fs : FS) :
    Except ImgError Unit × FS :=
  let fs1 := fsWrite path [] fs
  let format := if p.TargetFormat = "" then filepathExt path else p.TargetFormat
  let r := p.Encode enc format []
  (r.1, fsWrite path r.2 fs1)

/-- The parsed SVG document as the external `oksvg.ReadIconStream` delivers
it: the declared view-box dimensions (Go `float64`, modelled as exact
rationals; an absent view-box yields zero dimensions). -/
structure SvgIcon where
  viewBoxW : ℚ
  viewBoxH : ℚ

/-- The external scanline rasterizer (`rasterx` driven by `icon.Draw`), as
the samples it renders onto a canvas of the given size. -/
def RasterFn : Type := SvgIcon → Nat → Nat → Nat → Nat → Pixel

/-- Go `int(f)` for `f : float64`: truncation toward zero. -/
def truncToInt (q : ℚ) : Int :=
  if q < 0 then -(Int.floor (-q)) else Int.floor q

/-- Go `decodeSVG`: `w, h := int(icon.ViewBox.W), int(icon.ViewBox.H);
if w <= 0 || h <= 0 { w, h = 512, 512 }`; then rasterize onto
`image.NewRGBA(image.Rect(0, 0, w, h))`. -/
def decodeSVG (raster : RasterFn) (icon : SvgIcon) : Grid :=
  let w : Int := truncToInt icon.viewBoxW
  let h : Int := truncToInt icon.viewBoxH
  let wh : Int × Int := if w ≤ 0 ∨ h ≤ 0 then (512, 512) else (w, h)
  ⟨wh.1.toNat, wh.2.toNat, raster icon wh.1.toNat wh.2.toNat⟩

/-- The set of format tags the `Encode` switch accepts. -/
def supportedTag (s : String) : Bool :=
  s == "jpg" || s == "jpeg" || s == "png" || s == "gif" || s == "bmp" ||
    s == "tiff" || s == "tif"

/-! ### Concrete objects used by witnesses and counterexamples -/

/-- A concrete 1-by-1 red opaque grid. -/
def grid1 : Grid := ⟨1, 1, fun _ _ => ⟨255, 0, 0, 255⟩⟩

/-- A concrete stand-in for the external codecs. -/
def enc0 : EncFn := fun _ _ => [7]

/-- A concrete stand-in for the external Catmull-Rom resampler. -/
def resample0 : ResampleFn := fun _ _ _ _ _ => Pixel.zero

/-- A concrete stand-in for the external font renderer. -/
def draw0 : DrawFn := fun _ _ _ _ _ => Pixel.zero

/-- A concrete stand-in for the external SVG rasterizer. -/
def raster0 : RasterFn := fun _ _ _ _ _ => Pixel.zero

/-- A Processor whose image interface is nil. -/
def pNil : Processor := ⟨none, 90, ""⟩

/-- A concrete 2-by-1 grid with distinct samples. -/
def grid2 : Grid := ⟨2, 1, fun x _ => ⟨x, 0, 0, 255⟩⟩

/-! ### Claims -/

/-- C6: `SetQuality` leaves the stored quality in `[1, 100]`;
`SetQuality(0)` stores 1, `SetQuality(150)` stores 100; a freshly created
Processor has quality 90. -/
theorem c6_quality_clamp (p : Processor) (q : Int) (img : Option Grid) :
    1 ≤ (p.SetQuality q).Quality ∧ (p.SetQuality q).Quality ≤ 100 ∧
    (p.SetQuality 0).Quality = 1 ∧ (p.SetQuality 150).Quality = 100 ∧
    (NewProcessor img).Quality = 90 := by
  refine ⟨?_, ?_, rfl, rfl, rfl⟩ <;>
    · simp only [Processor.SetQuality]
      split_ifs <;> omega

/-- C2 counterexample: invoking a transform (here `Grayscale`) on a
Processor whose current grid is nil does not yield a terminal error — the
transform methods have no error channel at all — but panics (nil method
dispatch on the image interface). -/
theorem c2_counterexample : Processor.Grayscale pNil = TRes.panicked := rfl

/-- C2 amended: invoking any of the eight transform methods on a Processor
whose current grid is nil/absent panics (before any per-sample work); no
error value is returned since the methods return only `*Processor`. -/
theorem c2_nil_grid_panics (p : Processor) (resample : ResampleFn) (drawText : DrawFn)
    (w h : Nat) (pct : Int) (text : String) (hImg : p.Img = none) :
    p.Resize resample w h = .panicked ∧
    p.Grayscale = .panicked ∧
    p.Rotate180 = .panicked ∧
    p.Rotate90 = .panicked ∧
    p.FlipHorizontal = .panicked ∧
    p.FlipVertical = .panicked ∧
    p.Brightness pct = .panicked ∧
    p.Watermark drawText text = .panicked := by
  simp [Processor.Resize, Processor.Grayscale, Processor.Rotate180, Processor.Rotate90,
    Processor.FlipHorizontal, Processor.FlipVertical, Processor.Brightness,
    Processor.Watermark, hImg]

/-- C2 witness: the amended statement at a concrete nil Processor. -/
theorem c2_witness :
    pNil.Img = none ∧
    (pNil.Resize resample0 3 4 = .panicked ∧
      pNil.Grayscale = .panicked ∧
      pNil.Rotate180 = .panicked ∧
      pNil.Rotate90 = .panicked ∧
      pNil.FlipHorizontal = .panicked ∧
      pNil.FlipVertical = .panicked ∧
      pNil.Brightness 20 = .panicked ∧
      pNil.Watermark draw0 "hi" = .panicked) :=
  ⟨rfl, c2_nil_grid_panics pNil resample0 draw0 3 4 20 "hi" rfl⟩

/-- C10: each transform method replaces only the `Img` field (quality and
target format unchanged); `SetQuality` changes only `Quality`; each
`To<Format>` method changes only `TargetFormat`. -/
theorem c10_frame_conditions (p : Processor) (g : Grid) (resample : ResampleFn)
    (drawText : DrawFn) (w h : Nat) (pct : Int) (text : String) (q : Int)
    (hImg : p.Img = some g) :
    p.Resize resample w h = .ok { p with Img := some (resizeGrid resample g w h) } ∧
    p.Grayscale = .ok { p with Img := some (grayscaleGrid g) } ∧
    p.Rotate180 = .ok { p with Img := some (rot180Grid g) } ∧
    p.Rotate90 = .ok { p with Img := some (rot90Grid g) } ∧
    p.FlipHorizontal = .ok { p with Img := some (flipHGrid g) } ∧
    p.FlipVertical = .ok { p with Img := some (flipVGrid g) } ∧
    p.Brightness pct = .ok { p with Img := some (brightnessGrid pct g) } ∧
    p.Watermark drawText text = .ok { p with Img := some (watermarkGrid drawText g text) } ∧
    (p.SetQuality q).Img = p.Img ∧ (p.SetQuality q).TargetFormat = p.TargetFormat ∧
    p.ToPNG.Img = p.Img ∧ p.ToPNG.Quality = p.Quality ∧
    p.ToJPEG.Img = p.Img ∧ p.ToJPEG.Quality = p.Quality ∧
    p.ToGIF.Img = p.Img ∧ p.ToGIF.Quality = p.Quality ∧
    p.ToBMP.Img = p.Img ∧ p.ToBMP.Quality = p.Quality ∧
    p.ToTIFF.Img = p.Img ∧ p.ToTIFF.Quality = p.Quality := by
  simp [Processor.Resize, Processor.Grayscale, Processor.Rotate180, Processor.Rotate90,
    Processor.FlipHorizontal, Processor.FlipVertical, Processor.Brightness,
    Processor.Watermark, Processor.SetQuality, Processor.ToPNG, Processor.ToJPEG,
    Processor.ToGIF, Processor.ToBMP, Processor.ToTIFF, hImg]

/-- C10 witness: the frame conditions at a concrete Processor. -/
theorem c10_witness :
    (⟨some grid1, 90, ""⟩ : Processor).Img = some grid1 ∧
    ((⟨some grid1, 90, ""⟩ : Processor).Grayscale =
      .ok { (⟨some grid1, 90, ""⟩ : Processor) with Img := some (grayscaleGrid grid1) } ∧
     ((⟨some grid1, 90, ""⟩ : Processor).SetQuality 50).TargetFormat = "") :=
  ⟨rfl,
    (c10_frame_conditions ⟨some grid1, 90, ""⟩ grid1 resample0 draw0 3 4 20 "hi" 50
        rfl).2.1,
    (c10_frame_conditions ⟨some grid1, 90, ""⟩ grid1 resample0 draw0 3 4 20 "hi" 50
        rfl).2.2.2.2.2.2.2.2.2.1⟩

/-- C7: `Rotate180` applied twice, `FlipHorizontal` applied twice, and
`FlipVertical` applied twice each reproduce the original grid exactly:
same dimensions and the same sample at every coordinate. -/
theorem c7_involutions (g : Grid) :
    ((rot180Grid (rot180Grid g)).width = g.width ∧
      (rot180Grid (rot180Grid g)).height = g.height ∧
      ∀ x y, (rot180Grid (rot180Grid g)).pix x y = g.pix x y) ∧
    ((flipHGrid (flipHGrid g)).width = g.width ∧
      (flipHGrid (flipHGrid g)).height = g.height ∧
      ∀ x y, (flipHGrid (flipHGrid g)).pix x y = g.pix x y) ∧
    ((flipVGrid (flipVGrid g)).width = g.width ∧
      (flipVGrid (flipVGrid g)).height = g.height ∧
      ∀ x y, (flipVGrid (flipVGrid g)).pix x y = g.pix x y) := by
  refine ⟨⟨rfl, rfl, ?_⟩, ⟨rfl, rfl, ?_⟩, ⟨rfl, rfl, ?_⟩⟩ <;>
    · intro x y
      by_cases hx : x < g.width ∧ y < g.height
      · have h1 : g.width - 1 - x < g.width := by omega
        have h2 : g.height - 1 - y < g.height := by omega
        have e1 : g.width - 1 - (g.width - 1 - x) = x := by omega
        have e2 : g.height - 1 - (g.height - 1 - y) = y := by omega
        simp [rot180Grid, flipHGrid, flipVGrid, Grid.pix, hx.1, hx.2, h1, h2, e1, e2]
      · simp [rot180Grid, flipHGrid, flipVGrid, Grid.pix, hx]

/-- C8: `Rotate90` swaps the dimensions (`newW = oldH`, `newH = oldW`), the
destination sample at `(oldH-1-y, x)` equals the source sample at `(x, y)`
for every in-bounds `(x, y)`, and applying it four times reproduces the
original dimensions and every sample. -/
theorem c8_rotate90 (g : Grid) (x y : Nat) :
    (rot90Grid g).width = g.height ∧ (rot90Grid g).height = g.width ∧
    (x < g.width → y < g.height →
      (rot90Grid g).pix (g.height - 1 - y) x = g.pix x y) ∧
    (rot90Grid (rot90Grid (rot90Grid (rot90Grid g)))).width = g.width ∧
    (rot90Grid (rot90Grid (rot90Grid (rot90Grid g)))).height = g.height ∧
    ∀ u v, (rot90Grid (rot90Grid (rot90Grid (rot90Grid g)))).pix u v = g.pix u v := by
  refine ⟨rfl, rfl, ?_, rfl, rfl, ?_⟩
  · intro hx hy
    have h1 : g.height - 1 - y < g.height := by omega
    have e1 : g.height - 1 - (g.height - 1 - y) = y := by omega
    simp [rot90Grid, Grid.pix, hx, hy, h1, e1]
  · intro u v
    by_cases h : u < g.width ∧ v < g.height
    · have h1 : g.width - 1 - u < g.width := by omega
      have h2 : g.height - 1 - v < g.height := by omega
      have e1 : g.width - 1 - (g.width - 1 - u) = u := by omega
      have e2 : g.height - 1 - (g.height - 1 - v) = v := by omega
      simp [rot90Grid, Grid.pix, h.1, h.2, h1, h2, e1, e2]
    · simp [rot90Grid, Grid.pix, h]

/-- C8 witness: the scatter equation of `Rotate90` at a concrete grid and
coordinate. -/
theorem c8_witness :
    (1 < grid2.width ∧ 0 < grid2.height) ∧
    (rot90Grid grid2).pix (grid2.height - 1 - 0) 1 = grid2.pix 1 0 :=
  ⟨⟨by decide, by decide⟩, (c8_rotate90 grid2 1 0).2.2.1 (by decide) (by decide)⟩

/-- The channel map as the specification words it:
`clamp(v + 255 * percent / 100, 0, 255)` (with the byte truncation that
storing the result implies). -/
def specAdjust (pc : Int) (v : Nat) : Nat :=
  (⌊max 0 (min 255 ((v : ℚ) + 255 * (pc : ℚ) / 100))⌋).toNat

/-- The Go `adjust` closure agrees with the specified clamp formula. -/
theorem goAdjust_spec (pc : Int) (v : Nat) :
    goAdjust ((pc : ℚ) / 100) v = specAdjust pc v := by
  unfold goAdjust specAdjust
  rw [show (v : ℚ) + 255 * ((pc : ℚ) / 100) = (v : ℚ) + 255 * (pc : ℚ) / 100 from by ring]
  dsimp only
  split_ifs with h1 h2
  · rw [min_eq_left h1.le, max_eq_right (by norm_num : (0 : ℚ) ≤ 255)]
    norm_num
    decide
  · rw [min_eq_right (not_lt.mp h1), max_eq_left h2.le]
    norm_num
  · rw [min_eq_right (not_lt.mp h1), max_eq_right (not_lt.mp h2)]

/-- `adjust` at scale 1 (percent 100) sends every channel to 255. -/
theorem goAdjust_one (v : Nat) : goAdjust 1 v = 255 := by
  unfold goAdjust
  dsimp only
  split_ifs with h1 h2
  · rfl
  · exfalso
    have hv : (0 : ℚ) ≤ (v : ℚ) := Nat.cast_nonneg v
    linarith
  · have hv0 : v = 0 := by
      by_contra hne
      have h1v : 1 ≤ v := Nat.one_le_iff_ne_zero.mpr hne
      have h1q : (1 : ℚ) ≤ (v : ℚ) := by exact_mod_cast h1v
      exact h1 (by linarith)
    subst hv0
    norm_num
    decide

/-- `adjust` at scale 0 (percent 0) is the identity on byte channels. -/
theorem goAdjust_zero (v : Nat) (hv : v ≤ 255) : goAdjust 0 v = v := by
  unfold goAdjust
  simp only [mul_zero, add_zero]
  split_ifs with h1 h2
  · exact absurd h1 (not_lt.mpr (by exact_mod_cast hv))
  · exact absurd h2 (not_lt.mpr (Nat.cast_nonneg v))
  · rw [Int.floor_natCast]
    exact Int.toNat_natCast v

/-- `adjust` at scale -1 (percent -100) sends every byte channel to 0. -/
theorem goAdjust_negOne (v : Nat) (hv : v ≤ 255) : goAdjust (-1) v = 0 := by
  unfold goAdjust
  dsimp only
  split_ifs with h1 h2
  · exfalso
    have hq : ((v : ℚ)) ≤ 255 := by exact_mod_cast hv
    linarith
  · rfl
  · have hq : ((v : ℚ)) ≤ 255 := by exact_mod_cast hv
    have h0 := not_lt.mp h2
    have hv255 : (v : ℚ) = 255 := by linarith
    rw [hv255]
    norm_num

/-- In-bounds unfolding of `brightnessGrid`. -/
theorem brightness_pix (pct : Int) (g : Grid) (x y : Nat)
    (hx : x < g.width) (hy : y < g.height) :
    (brightnessGrid pct g).pix x y =
      ⟨goAdjust ((clampPercent pct : ℚ) / 100) (g.pix x y).r,
       goAdjust ((clampPercent pct : ℚ) / 100) (g.pix x y).g,
       goAdjust ((clampPercent pct : ℚ) / 100) (g.pix x y).b,
       (g.pix x y).a⟩ := by
  simp [brightnessGrid, Grid.pix, hx, hy]

/-- C3: `Brightness` first clamps the percentage to `[-100, 100]`; every
in-bounds pixel has its red, green and blue channels mapped through
`clamp(v + 255 * percent / 100, 0, 255)` and its alpha passed through;
percent 0 is the identity on byte pixels, percent 100 sends every channel
to 255, percent -100 sends every channel to 0. -/
theorem c3_brightness (g : Grid) (percent : Int) (x y : Nat)
    (hx : x < g.width) (hy : y < g.height) :
    (brightnessGrid percent g).width = g.width ∧
    (brightnessGrid percent g).height = g.height ∧
    (-100 ≤ clampPercent percent ∧ clampPercent percent ≤ 100) ∧
    (brightnessGrid percent g).pix x y =
      ⟨specAdjust (clampPercent percent) (g.pix x y).r,
       specAdjust (clampPercent percent) (g.pix x y).g,
       specAdjust (clampPercent percent) (g.pix x y).b,
       (g.pix x y).a⟩ ∧
    ((g.pix x y).wf → percent = 0 → (brightnessGrid percent g).pix x y = g.pix x y) ∧
    (percent = 100 →
      (brightnessGrid percent g).pix x y = ⟨255, 255, 255, (g.pix x y).a⟩) ∧
    ((g.pix x y).wf → percent = -100 →
      (brightnessGrid percent g).pix x y = ⟨0, 0, 0, (g.pix x y).a⟩) := by
  refine ⟨rfl, rfl, ?_, ?_, ?_, ?_, ?_⟩
  · unfold clampPercent
    split_ifs <;> omega
  · rw [brightness_pix percent g x y hx hy]
    simp [goAdjust_spec]
  · intro hwf h0
    subst h0
    rw [brightness_pix 0 g x y hx hy]
    rw [show ((clampPercent 0 : Int) : ℚ) / 100 = 0 from by norm_num [clampPercent]]
    rcases hwf with ⟨h1, h2, h3, _⟩
    rw [goAdjust_zero _ h1, goAdjust_zero _ h2, goAdjust_zero _ h3]
  · intro h100
    subst h100
    rw [brightness_pix 100 g x y hx hy]
    rw [show ((clampPercent 100 : Int) : ℚ) / 100 = 1 from by norm_num [clampPercent]]
    rw [goAdjust_one, goAdjust_one, goAdjust_one]
  · intro hwf hneg
    subst hneg
    rw [brightness_pix (-100) g x y hx hy]
    rw [show ((clampPercent (-100) : Int) : ℚ) / 100 = -1 from by norm_num [clampPercent]]
    rcases hwf with ⟨h1, h2, h3, _⟩
    rw [goAdjust_negOne _ h1, goAdjust_negOne _ h2, goAdjust_negOne _ h3]

/-- C3 witness: the channel formula at a concrete grid and percentage. -/
theorem c3_witness :
    ((0 : Nat) < grid1.width ∧ (0 : Nat) < grid1.height) ∧
    (brightnessGrid 37 grid1).pix 0 0 =
      ⟨specAdjust (clampPercent 37) (grid1.pix 0 0).r,
       specAdjust (clampPercent 37) (grid1.pix 0 0).g,
       specAdjust (clampPercent 37) (grid1.pix 0 0).b,
       (grid1.pix 0 0).a⟩ :=
  ⟨⟨by decide, by decide⟩,
    (c3_brightness grid1 37 0 0 (by decide) (by decide)).2.2.2.1⟩

/-- Reading back a file just written. -/
theorem fsLookup_write (path : String) (c : List Nat) (fs : FS) :
    fsLookup path (fsWrite path c fs) = some c := by
  simp [fsLookup, fsWrite]

/-- A tag outside the dispatch table reaches the `default` branch of the
`Encode` switch. -/
theorem dispatch_unsupported (p : Processor) (format : String)
    (h : supportedTag (normalizeTag (if format = "" then p.TargetFormat else format)) = false) :
    p.EncodeDispatch format =
      .error (.unsupportedFormat (normalizeTag (if format = "" then p.TargetFormat else format))) := by
  unfold Processor.EncodeDispatch
  unfold supportedTag at h
  simp only [Bool.or_eq_false_iff, beq_eq_false_iff_ne, ne_eq] at h
  obtain ⟨⟨⟨⟨⟨⟨h1, h2⟩, h3⟩, h4⟩, h5⟩, h6⟩, h7⟩ := h
  simp [h1, h2, h3, h4, h5, h6, h7]

/-- Resolving the format that `Save` passes to `Encode` a second time (as
`Encode` itself does) changes nothing. -/
theorem saveFmt_idem (p : Processor) (path : String) :
    (if (if p.TargetFormat = "" then filepathExt path else p.TargetFormat) = ""
      then p.TargetFormat
      else if p.TargetFormat = "" then filepathExt path else p.TargetFormat) =
    (if p.TargetFormat = "" then filepathExt path else p.TargetFormat) := by
  by_cases h : p.TargetFormat = ""
  · rw [if_pos h]
    by_cases hext : filepathExt path = ""
    · rw [if_pos hext, h, hext]
    · rw [if_neg hext]
  · rw [if_neg h, if_neg h]

/-- When the dispatch fails, `Save` returns the error and the destination
file is left created but empty. -/
theorem save_encode_error (enc : EncFn) (p : Processor) (path : String) (fs : FS)
    (e : ImgError)
    (h : p.EncodeDispatch (if p.TargetFormat = "" then filepathExt path else p.TargetFormat) =
      .error e) :
    p.Save enc path fs = (.error e, fsWrite path [] (fsWrite path [] fs)) := by
  unfold Processor.Save Processor.Encode
  dsimp only
  rw [h]

/-- The embedded normalization covers the two Unicode simple case mappings
that land in ASCII: the tag `"GİF"` (with U+0130) normalizes to `"gif"`
and dispatches to the GIF codec exactly as the Go program does, and the
Kelvin sign (U+212A) lowers to `k`. -/
theorem normalizeTag_dottedI :
    normalizeTag "GİF" = "gif" ∧
    (⟨some grid1, 90, ""⟩ : Processor).EncodeDispatch "GİF" = .ok .gif ∧
    lowerChar (Char.ofNat 8490) = 'k' :=
  ⟨rfl, rfl, rfl⟩

/-- C1 counterexample: saving with the unsupported format tag `"xyz"` to a
previously absent destination path fails with the unsupported-format error
but leaves an empty file persisted at the destination — the filesystem
state at that path is changed, contradicting the claim. -/
theorem c1_counterexample :
    fsLookup "out.xyz" ([] : FS) = none ∧
    ((⟨some grid1, 90, "xyz"⟩ : Processor).Save enc0 "out.xyz" []).1 =
      .error (.unsupportedFormat "xyz") ∧
    fsLookup "out.xyz" ((⟨some grid1, 90, "xyz"⟩ : Processor).Save enc0 "out.xyz" []).2 =
      some [] := by
  refine ⟨rfl, rfl, ?_⟩
  rw [show ((⟨some grid1, 90, "xyz"⟩ : Processor).Save enc0 "out.xyz" []).2 =
      fsWrite "out.xyz" [] (fsWrite "out.xyz" [] []) from rfl]
  exact fsLookup_write "out.xyz" [] (fsWrite "out.xyz" [] [])

/-- C1 amended: requesting an output format tag that does not normalize to
one of jpg/jpeg/png/gif/bmp/tiff/tif makes `Save` fail with an
unsupported-format error and write no encoded bytes, but `Save` creates
(or truncates) the destination file before encoding, so after the failure
an empty file persists at the destination path; `ToBytes` with such a tag
fails with the same kind of error and returns no bytes.  The hypotheses
use the embedded normalization, which decides supportedness exactly as Go
does for every input (see `lowerChar`); the conclusions assert the error
constructor without pinning its payload string. -/
theorem c1_unsupported_format (enc : EncFn) (p : Processor) (path : String) (fs : FS)
    (tag : String)
    (hSave : supportedTag
      (normalizeTag (if p.TargetFormat = "" then filepathExt path else p.TargetFormat)) = false)
    (hTag : tag ≠ "")
    (hTagBad : supportedTag (normalizeTag tag) = false) :
    (∃ s, (p.Save enc path fs).1 = .error (.unsupportedFormat s)) ∧
    (p.Save enc path fs).2 = fsWrite path [] (fsWrite path [] fs) ∧
    fsLookup path (p.Save enc path fs).2 = some [] ∧
    ∃ s, p.ToBytes enc tag = .error (.unsupportedFormat s) := by
  have hdisp : p.EncodeDispatch (if p.TargetFormat = "" then filepathExt path else p.TargetFormat) =
      .error (.unsupportedFormat
        (normalizeTag (if p.TargetFormat = "" then filepathExt path else p.TargetFormat))) := by
    have h2 := dispatch_unsupported p
      (if p.TargetFormat = "" then filepathExt path else p.TargetFormat)
    rw [saveFmt_idem p path] at h2
    exact h2 hSave
  have hsave := save_encode_error enc p path fs _ hdisp
  refine ⟨⟨normalizeTag (if p.TargetFormat = "" then filepathExt path else p.TargetFormat),
      by rw [hsave]⟩, by rw [hsave], ?_, ?_⟩
  · rw [hsave]
    exact fsLookup_write path [] (fsWrite path [] fs)
  · have hdispTag : p.EncodeDispatch tag = .error (.unsupportedFormat (normalizeTag tag)) := by
      have h2 := dispatch_unsupported p tag
      rw [if_neg hTag] at h2
      exact h2 hTagBad
    refine ⟨normalizeTag tag, ?_⟩
    unfold Processor.ToBytes Processor.Encode
    dsimp only
    rw [if_neg hTag, if_neg hTag, hdispTag]

/-- C1 witness: the amended statement at the concrete tag `"xyz"`. -/
theorem c1_witness :
    (supportedTag (normalizeTag
        (if (⟨some grid1, 90, "xyz"⟩ : Processor).TargetFormat = ""
          then filepathExt "out.xyz"
          else (⟨some grid1, 90, "xyz"⟩ : Processor).TargetFormat)) = false ∧
      ("xyz" : String) ≠ "" ∧ supportedTag (normalizeTag "xyz") = false) ∧
    (∃ s, ((⟨some grid1, 90, "xyz"⟩ : Processor).Save enc0 "out.xyz" []).1 =
      .error (.unsupportedFormat s)) ∧
    fsLookup "out.xyz" ((⟨some grid1, 90, "xyz"⟩ : Processor).Save enc0 "out.xyz" []).2 =
      some [] ∧
    ∃ s, (⟨some grid1, 90, "xyz"⟩ : Processor).ToBytes enc0 "xyz" =
      .error (.unsupportedFormat s) :=
  ⟨⟨by decide, by decide, by decide⟩,
    (c1_unsupported_format enc0 ⟨some grid1, 90, "xyz"⟩ "out.xyz" [] "xyz"
        (by decide) (by decide) (by decide)).1,
    (c1_unsupported_format enc0 ⟨some grid1, 90, "xyz"⟩ "out.xyz" [] "xyz"
        (by decide) (by decide) (by decide)).2.2.1,
    (c1_unsupported_format enc0 ⟨some grid1, 90, "xyz"⟩ "out.xyz" [] "xyz"
        (by decide) (by decide) (by decide)).2.2.2⟩

/-- C4: an explicitly set target format determines the codec `Save` uses —
the whole `Save` outcome is independent of the destination path's
extension — and the extension is consulted only when no target format is
set; each `To<Format>` call sets a (non-empty) explicit tag. -/
theorem c4_format_precedence (enc : EncFn) (p : Processor) (path path2 : String) (fs : FS) :
    (p.ToPNG.TargetFormat = "png" ∧ p.ToJPEG.TargetFormat = "jpeg" ∧
      p.ToGIF.TargetFormat = "gif" ∧ p.ToBMP.TargetFormat = "bmp" ∧
      p.ToTIFF.TargetFormat = "tiff") ∧
    (p.TargetFormat ≠ "" →
      p.Save enc path fs =
        ((p.Encode enc p.TargetFormat []).1,
          fsWrite path (p.Encode enc p.TargetFormat []).2 (fsWrite path [] fs)) ∧
      (p.Save enc path fs).1 = (p.Save enc path2 fs).1) ∧
    (p.TargetFormat = "" →
      p.Save enc path fs =
        ((p.Encode enc (filepathExt path) []).1,
          fsWrite path (p.Encode enc (filepathExt path) []).2 (fsWrite path [] fs))) := by
  refine ⟨⟨rfl, rfl, rfl, rfl, rfl⟩, ?_, ?_⟩
  · intro h
    constructor
    · simp [Processor.Save, if_neg h]
    · simp [Processor.Save, if_neg h]
  · intro h
    simp [Processor.Save, h]

/-- C4 witness: a processor with target format `"png"` saved to a path with
the conflicting extension `".jpg"`. -/
theorem c4_witness :
    (⟨some grid1, 90, "png"⟩ : Processor).TargetFormat ≠ "" ∧
    ((⟨some grid1, 90, "png"⟩ : Processor).Save enc0 "photo.jpg" [] =
      (((⟨some grid1, 90, "png"⟩ : Processor).Encode enc0 "png" []).1,
        fsWrite "photo.jpg" ((⟨some grid1, 90, "png"⟩ : Processor).Encode enc0 "png" []).2
          (fsWrite "photo.jpg" [] [])) ∧
      ((⟨some grid1, 90, "png"⟩ : Processor).Save enc0 "photo.jpg" []).1 =
        ((⟨some grid1, 90, "png"⟩ : Processor).Save enc0 "other.gif" []).1) :=
  ⟨by decide,
    (c4_format_precedence enc0 ⟨some grid1, 90, "png"⟩ "photo.jpg" "other.gif" []).2.1
      (by decide)⟩

/-- C5 counterexample: `Encode` with an empty format override and no target
format set fails with the unsupported-format error (the empty tag reaches
the `default` switch branch), not with the no-format-specified error the
claim states. -/
theorem c5_counterexample :
    (⟨some grid1, 90, ""⟩ : Processor).Encode enc0 "" [] =
      (.error (.unsupportedFormat ""), []) ∧
    ImgError.unsupportedFormat "" ≠ ImgError.noFormatSpecified :=
  ⟨rfl, by decide⟩

/-- C5 amended: with an empty format override and no target-format tag,
`ToBytes` fails with the no-format-specified error and returns no bytes,
while `Encode` fails with an unsupported-format error for the empty tag and
writes nothing to the sink. -/
theorem c5_no_format (enc : EncFn) (p : Processor) (sink : List Nat)
    (hTF : p.TargetFormat = "") :
    p.ToBytes enc "" = .error .noFormatSpecified ∧
    p.Encode enc "" sink = (.error (.unsupportedFormat ""), sink) := by
  constructor
  · simp [Processor.ToBytes, hTF]
  · have hn : normalizeTag "" = "" := rfl
    simp [Processor.Encode, Processor.EncodeDispatch, hTF, hn]

/-- C5 witness: the amended statement at a concrete processor and sink. -/
theorem c5_witness :
    (⟨some grid1, 90, ""⟩ : Processor).TargetFormat = "" ∧
    ((⟨some grid1, 90, ""⟩ : Processor).ToBytes enc0 "" = .error .noFormatSpecified ∧
      (⟨some grid1, 90, ""⟩ : Processor).Encode enc0 "" [3] =
        (.error (.unsupportedFormat ""), [3])) :=
  ⟨rfl, c5_no_format enc0 ⟨some grid1, 90, ""⟩ [3] rfl⟩

/-- C9: the rasterized SVG canvas takes its dimensions from the truncated
view-box values, falling back to exactly 512 by 512 when either truncated
dimension is non-positive (in particular when the view-box is absent and
parses as zero). -/
theorem c9_svg_dimensions (raster : RasterFn) (icon : SvgIcon) :
    (truncToInt icon.viewBoxW ≤ 0 ∨ truncToInt icon.viewBoxH ≤ 0 →
      (decodeSVG raster icon).width = 512 ∧ (decodeSVG raster icon).height = 512) ∧
    (0 < truncToInt icon.viewBoxW → 0 < truncToInt icon.viewBoxH →
      (decodeSVG raster icon).width = (truncToInt icon.viewBoxW).toNat ∧
      (decodeSVG raster icon).height = (truncToInt icon.viewBoxH).toNat) := by
  constructor
  · intro h
    simp [decodeSVG, h]
  · intro h1 h2
    have hn : ¬(truncToInt icon.viewBoxW ≤ 0 ∨ truncToInt icon.viewBoxH ≤ 0) := by
      push_neg
      exact ⟨h1, h2⟩
    simp [decodeSVG, hn]

/-- C9 witness: a 100-by-100 view-box and the absent (zero) view-box. -/
theorem c9_witness :
    (0 < truncToInt (⟨100, 100⟩ : SvgIcon).viewBoxW ∧
      0 < truncToInt (⟨100, 100⟩ : SvgIcon).viewBoxH) ∧
    ((decodeSVG raster0 ⟨100, 100⟩).width = (truncToInt (100 : ℚ)).toNat ∧
      (decodeSVG raster0 ⟨100, 100⟩).height = (truncToInt (100 : ℚ)).toNat) ∧
    ((decodeSVG raster0 ⟨0, 0⟩).width = 512 ∧ (decodeSVG raster0 ⟨0, 0⟩).height = 512) :=
  ⟨⟨by decide, by decide⟩,
    (c9_svg_dimensions raster0 ⟨100, 100⟩).2 (by decide) (by decide),
    (c9_svg_dimensions raster0 ⟨0, 0⟩).1 (Or.inl (by decide))⟩

end ImageProcessor
